import Mathlib

/-!
Verification of the emotion-fusion / safety / wellness core of the
AI-powered emotion detection repository.

Shallow embedding conventions:
- Python float arithmetic is modelled exactly over the rationals.
- Python dicts (emotion distributions, lookup tables) are modelled as
  association lists in insertion order; `dict.get(k, 0)` becomes `dget`.
- Python's `round(x, n)` is modelled with Mathlib's `round` at scale
  10 ^ n.  Python rounds half to even on binary floats; no value proved
  about below falls on a half-way tie, where the two roundings agree.
- Python's substring test `needle in hay` becomes `occursIn` on
  character lists; `str.lower()` becomes `lowerChars` (the texts involved
  are ASCII, where Python's and Lean's per-character lowercasing agree).
-/

/-- Model of `dict.get(key, 0)` on an emotion distribution. -/
abbrev EmoDist := List (String × ℚ)

/-- Score of `k` in distribution `d`, defaulting to 0 when absent. -/
def dget (d : EmoDist) (k : String) : ℚ := (d.lookup k).getD 0

/-- Model of `str.lower()` on the character list of an ASCII string. -/
def lowerChars (s : List Char) : List Char := s.map Char.toLower

/-- Model of `str.startswith`: the first list begins the second. -/
def leadsWith : List Char → List Char → Bool
  | [], _ => true
  | _ :: _, [] => false
  | a :: as, b :: bs => a == b && leadsWith as bs

/-- Model of Python's substring test `needle in hay`. -/
def occursIn (needle : List Char) : List Char → Bool
  | [] => needle.isEmpty
  | c :: t => leadsWith needle (c :: t) || occursIn needle t

/-- Model of `" ".join(strings)`, as a character list. -/
def join_space : List String → List Char
  | [] => []
  | s :: rest => rest.foldl (fun acc t => acc ++ (' ' :: t.data)) s.data

/-! Configuration constants from `src/configs/config.py`. -/

/-- EmotionConfig.voice_weight (config.py line 30). -/
def voice_weight : ℚ := 0.65

/-- EmotionConfig.text_weight (config.py line 31). -/
def text_weight : ℚ := 0.35

/-- EmotionConfig.mild_threshold (config.py line 34). -/
def mild_threshold : ℚ := 0.3

/-- EmotionConfig.moderate_threshold (config.py line 35). -/
def moderate_threshold : ℚ := 0.5

/-- EmotionConfig.high_threshold (config.py line 36). -/
def high_threshold : ℚ := 0.7

/-- EmotionConfig.crisis_threshold (config.py line 37). -/
def crisis_threshold : ℚ := 0.85

/-- EmotionConfig.emotions, the 8 supported emotion labels (config.py lines 40-43). -/
def supported_emotions : List String :=
  ["sadness", "anger", "fear", "anxiety", "joy", "neutral", "confusion", "frustration"]

/-- SafetyConfig.crisis_keywords (config.py lines 87-91). -/
def crisis_keywords : List String :=
  ["suicide", "kill myself", "end it all", "don\x27t want to live",
   "hurt myself", "self harm", "no point", "give up",
   "hopeless", "can\x27t go on", "want to die", "ending my life"]

/-- SafetyConfig.crisis_resources (config.py lines 93-98); dict in insertion order. -/
def crisis_resources : List (String × String) :=
  [("US", "988 Suicide & Crisis Lifeline: Call or text 988"),
   ("UK", "Samaritans: 116 123"),
   ("India", "iCall: 9152987821 | Vandrevala Foundation: 1860-2662-345"),
   ("International", "Find your local helpline at findahelpline.com")]

/-! Data model of `src/modules/prosody_emotion.py`, `text_emotion.py`,
`emotion_fusion.py`. -/

/-- EmotionResult dataclass (prosody_emotion.py lines 28-33). -/
structure EmotionResult where
  primary_emotion : String
  confidence : ℚ
  all_emotions : EmoDist
  intensity : ℚ
deriving DecidableEq, Repr

/-- TextEmotionResult dataclass (text_emotion.py lines 17-23). -/
structure TextEmotionResult where
  primary_emotion : String
  confidence : ℚ
  all_emotions : EmoDist
  sentiment : String
  key_phrases : List String
deriving DecidableEq, Repr

/-- FusedEmotionResult dataclass (emotion_fusion.py lines 16-27). -/
structure FusedEmotionResult where
  primary_emotion : String
  confidence : ℚ
  all_emotions : EmoDist
  intensity : ℚ
  intensity_level : String
  voice_contribution : EmoDist
  text_contribution : EmoDist
  key_phrases : List String
  requires_crisis_response : Bool
deriving DecidableEq, Repr

/-- Model of Python's `round(x, n)` over the rationals (half-way ties, which
never arise in the facts proved below, round up here; `round_to_eq_round`
below identifies this with Mathlib's `round` at scale `10 ^ n`). -/
def round_to (n : ℕ) (x : ℚ) : ℚ := (((x * 10 ^ n + 1 / 2).floor : ℤ) : ℚ) / 10 ^ n

/-- Label set `set(voice keys + text keys)` (emotion_fusion.py lines 72-75);
CPython set order is hash-dependent, modelled with duplicate removal.
No theorem below depends on the order of this list, only on membership. -/
def all_categories (v t : EmoDist) : List String :=
  (v.map Prod.fst ++ t.map Prod.fst).dedup

/-- Weighted-fusion loop of fuse_emotions (emotion_fusion.py lines 78-90). -/
def fused_scores (v t : EmoDist) : EmoDist :=
  (all_categories v t).map
    (fun e => (e, round_to 4 (voice_weight * dget v e + text_weight * dget t e)))

/-- The six labels backfilled by fuse_emotions (emotion_fusion.py line 93). -/
def required_emotions : List String :=
  ["sadness", "anger", "fear", "anxiety", "joy", "neutral"]

/-- Backfill loop of fuse_emotions (emotion_fusion.py lines 92-95): missing
required labels are appended with score 0.0 (dict insertion order). -/
def backfill_core (d : EmoDist) : EmoDist :=
  required_emotions.foldl
    (fun acc e => if (acc.lookup e).isSome then acc else acc ++ [(e, 0)]) d

/-- Model of `max(fused_emotions, key=fused_emotions.get)` (emotion_fusion.py
line 98): first key attaining the maximal score, in iteration order.  The
empty case returns "" ; it is unreachable because the distribution has been
backfilled (Python's `max` would raise there). -/
def primary_of : EmoDist → String
  | [] => ""
  | (k, x) :: rest => (rest.foldl (fun b p => if b.2 < p.2 then p else b) (k, x)).1

/-- Distress weights dict of _calculate_intensity (emotion_fusion.py lines 150-156). -/
def distress_weights : List (String × ℚ) :=
  [("sadness", 1.5), ("fear", 1.5), ("anxiety", 1.4), ("anger", 1.2), ("frustration", 1.1)]

/-- EmotionFusion._calculate_intensity (emotion_fusion.py lines 136-173). -/
def calculate_intensity (emotions : EmoDist) (voice_intensity : ℚ) : ℚ :=
  let distress_score := distress_weights.foldl (fun s p => s + dget emotions p.1 * p.2) 0
  let neutral_factor := 1 - dget emotions "neutral"
  min 1 (0.4 * (distress_score / (distress_weights.map Prod.snd).sum)
    + 0.3 * neutral_factor + 0.3 * voice_intensity)

/-- EmotionFusion._get_intensity_level (emotion_fusion.py lines 175-186). -/
def get_intensity_level (intensity : ℚ) : String :=
  if crisis_threshold ≤ intensity then "crisis"
  else if high_threshold ≤ intensity then "high"
  else if moderate_threshold ≤ intensity then "moderate"
  else if mild_threshold ≤ intensity then "mild"
  else "low"

/-- EmotionFusion._check_crisis_indicators (emotion_fusion.py lines 188-222). -/
def check_crisis_indicators (intensity : ℚ) (key_phrases : List String)
    (emotions : EmoDist) : Bool :=
  if crisis_threshold ≤ intensity then true
  else if crisis_keywords.any
      (fun kw => occursIn kw.data (lowerChars (join_space key_phrases))) then true
  else if 0.6 < dget emotions "sadness" ∧ 0.4 < dget emotions "fear"
      ∧ high_threshold < intensity then true
  else false

/-- EmotionFusion.fuse_emotions (emotion_fusion.py lines 54-134). -/
def fuse_emotions (voice_emotion : EmotionResult) (text_emotion : TextEmotionResult) :
    FusedEmotionResult :=
  let fused_emotions :=
    backfill_core (fused_scores voice_emotion.all_emotions text_emotion.all_emotions)
  let primary_emotion := primary_of fused_emotions
  let confidence := dget fused_emotions primary_emotion
  let intensity := calculate_intensity fused_emotions voice_emotion.intensity
  let intensity_level := get_intensity_level intensity
  let requires_crisis :=
    check_crisis_indicators intensity text_emotion.key_phrases fused_emotions
  { primary_emotion := primary_emotion
    confidence := round_to 3 confidence
    all_emotions := fused_emotions
    intensity := round_to 3 intensity
    intensity_level := intensity_level
    voice_contribution := voice_emotion.all_emotions
    text_contribution := text_emotion.all_emotions
    key_phrases := text_emotion.key_phrases
    requires_crisis_response := requires_crisis }

/-! Embedding of `src/modules/safety_checker.py`. -/

/-- SafetyCheckResult dataclass (safety_checker.py lines 14-23). -/
structure SafetyCheckResult where
  is_crisis : Bool
  is_high_distress : Bool
  crisis_type : Option String
  recommended_action : String
  crisis_resources : List String
  should_skip_suggestion : Bool
  priority_message : Option String
deriving DecidableEq, Repr

/-- SafetyChecker.self_harm_patterns (safety_checker.py lines 44-49). -/
def self_harm_patterns : List String :=
  ["hurt myself", "harm myself", "cut myself",
   "end my life", "end it all", "kill myself",
   "don\x27t want to live", "better off dead",
   "no reason to live", "give up on life"]

/-- SafetyChecker.hopelessness_patterns (safety_checker.py lines 51-55). -/
def hopelessness_patterns : List String :=
  ["no hope", "hopeless", "nothing matters",
   "no point", "worthless", "burden",
   "nobody cares", "alone forever", "give up"]

/-- SafetyChecker.extreme_distress_patterns (safety_checker.py lines 57-61). -/
def extreme_distress_patterns : List String :=
  ["can\x27t take it", "breaking down", "falling apart",
   "losing my mind", "can\x27t cope", "drowning",
   "crushing me", "suffocating"]

/-- SafetyChecker._check_patterns (safety_checker.py lines 140-142). -/
def check_patterns (text : List Char) (patterns : List String) : Bool :=
  patterns.any (fun p => occursIn p.data text)

/-- Static message for crisis type "self_harm" (safety_checker.py lines 147-152). -/
def self_harm_message : String :=
  "I hear that you\x27re in a lot of pain right now. You don\x27t have to go through this alone. Please consider reaching out to someone who can help — a trusted friend, family member, or a crisis helpline."

/-- Static message for crisis type "hopelessness" (safety_checker.py lines 153-158). -/
def hopelessness_message : String :=
  "I can hear how heavy everything feels right now. These feelings are real, and they matter. But please know that support is available, and talking to someone can help."

/-- Static message for crisis type "crisis_keywords" (safety_checker.py lines 159-163). -/
def crisis_keywords_message : String :=
  "What you\x27re going through sounds really difficult. I want you to know that you matter, and help is available. Please consider talking to someone you trust or a counselor."

/-- Static message for crisis type "extreme_distress" (safety_checker.py lines 164-169). -/
def extreme_distress_message : String :=
  "I can hear how overwhelmed you\x27re feeling. That\x27s an incredibly hard place to be. You don\x27t have to face this alone — reaching out to someone can really help."

/-- Static message lookup of _get_crisis_message (safety_checker.py lines 146-170). -/
def crisis_messages : List (String × String) :=
  [("self_harm", self_harm_message),
   ("hopelessness", hopelessness_message),
   ("crisis_keywords", crisis_keywords_message),
   ("extreme_distress", extreme_distress_message)]

/-- SafetyChecker._get_crisis_message (safety_checker.py lines 144-172):
dict lookup with the extreme_distress message as default. -/
def get_crisis_message (crisis_type : String) : String :=
  (crisis_messages.lookup crisis_type).getD extreme_distress_message

/-- SafetyChecker._get_relevant_resources (safety_checker.py lines 174-181):
formats every configured resource; the crisis_type argument is unused. -/
def get_relevant_resources (_crisis_type : String) : List String :=
  crisis_resources.map (fun p => p.1 ++ ": " ++ p.2)

/-- SafetyChecker.check_safety (safety_checker.py lines 63-138).  When
is_crisis holds, crisis_type is some concrete string, so the `getD ""`
model artifact for passing the Optional to the helpers is never the
fallback path Python would take on None. -/
def check_safety (transcribed_text : String) (emotion_result : FusedEmotionResult) :
    SafetyCheckResult :=
  let text_lower := lowerChars transcribed_text.data
  let self_harm_detected := check_patterns text_lower self_harm_patterns
  let hopelessness_detected := check_patterns text_lower hopelessness_patterns
  let extreme_distress := check_patterns text_lower extreme_distress_patterns
  let crisis_keyword := check_patterns text_lower crisis_keywords
  let assessed : Option String × Bool :=
    if self_harm_detected then (some "self_harm", true)
    else if hopelessness_detected ∧ 0.7 ≤ emotion_result.intensity then
      (some "hopelessness", true)
    else if crisis_keyword then (some "crisis_keywords", true)
    else if emotion_result.requires_crisis_response then (some "extreme_distress", true)
    else (none, false)
  let crisis_type := assessed.1
  let is_crisis := assessed.2
  let is_high_distress :=
    (["high", "crisis"] : List String).contains emotion_result.intensity_level
      || extreme_distress
  let action : String × Bool × Option String :=
    if is_crisis then
      ("crisis_response", true, some (get_crisis_message (crisis_type.getD "")))
    else if is_high_distress then ("comfort_first", true, none)
    else ("normal", false, none)
  let resources := if is_crisis then get_relevant_resources (crisis_type.getD "") else []
  { is_crisis := is_crisis
    is_high_distress := is_high_distress
    crisis_type := crisis_type
    recommended_action := action.1
    crisis_resources := resources
    should_skip_suggestion := action.2.1
    priority_message := action.2.2 }

/-! Embedding of `src/modules/wellness_engine.py`. -/

/-- WellnessModule enum (wellness_engine.py lines 18-34). -/
inductive WellnessModule where
  | BREATHING
  | GROUNDING
  | YOGA
  | MEDITATION
  | JOURNALING
  | SELF_COMPASSION
  | MINDFULNESS
  | BODY_SCAN
  | REASSURANCE
  | SAFETY_GROUNDING
  | CALMING
  | REFLECTION
  | GRATITUDE
  | REST
  | GENERAL
deriving DecidableEq, Repr

/-- WellnessSuggestion dataclass (wellness_engine.py lines 37-45). -/
structure WellnessSuggestion where
  module : WellnessModule
  title : String
  description : String
  duration : String
  instructions : List String
  tone : String
deriving DecidableEq, Repr

/-- WellnessEngine._initialize_activities (wellness_engine.py lines 155-467):
the static activity catalog, as a dict in insertion order. -/
def activities : List (String × WellnessSuggestion) :=
  [("breathing",
    { module := WellnessModule.BREATHING
      title := "Gentle Breathing"
      description := "A simple breathing exercise to help you feel more grounded."
      duration := "2-3 minutes"
      instructions :=
        ["Find a comfortable position",
         "Breathe in slowly through your nose for 4 counts",
         "Hold gently for 4 counts",
         "Exhale slowly through your mouth for 6 counts",
         "Repeat 3-4 times, or as long as feels comfortable"]
      tone := "soft" }),
   ("box_breathing",
    { module := WellnessModule.BREATHING
      title := "Box Breathing"
      description := "A calming technique used by Navy SEALs to reduce stress instantly."
      duration := "3-4 minutes"
      instructions :=
        ["Breathe in for 4 seconds",
         "Hold for 4 seconds",
         "Breathe out for 4 seconds",
         "Hold for 4 seconds",
         "Repeat 4-6 times"]
      tone := "calm" }),
   ("grounding",
    { module := WellnessModule.GROUNDING
      title := "5-4-3-2-1 Grounding"
      description := "A grounding technique to bring you back to the present moment."
      duration := "3-5 minutes"
      instructions :=
        ["Notice 5 things you can see around you",
         "Notice 4 things you can touch or feel",
         "Notice 3 things you can hear",
         "Notice 2 things you can smell",
         "Notice 1 thing you can taste",
         "Take a deep breath when you\x27re done"]
      tone := "calm" }),
   ("yoga",
    { module := WellnessModule.YOGA
      title := "Gentle Stretching"
      description := "Simple stretches to release tension from your body."
      duration := "5 minutes"
      instructions :=
        ["Stand or sit comfortably",
         "Gently roll your shoulders back",
         "Slowly turn your head side to side",
         "Reach your arms up and stretch",
         "Take slow, deep breaths as you move"]
      tone := "calm" }),
   ("guided_meditation",
    { module := WellnessModule.MEDITATION
      title := "Brief Meditation"
      description := "A short moment of peaceful stillness."
      duration := "3-5 minutes"
      instructions :=
        ["Find a quiet, comfortable spot",
         "Close your eyes if it feels okay",
         "Focus on your breath, without changing it",
         "When thoughts come, gently let them pass",
         "Return your attention to your breath"]
      tone := "soft" }),
   ("journaling",
    { module := WellnessModule.JOURNALING
      title := "Quick Journal Prompt"
      description := "Writing can help process feelings."
      duration := "5-10 minutes"
      instructions :=
        ["Find a piece of paper or open a note",
         "Write whatever comes to mind",
         "No need to organize or make it perfect",
         "Just let your thoughts flow onto the page",
         "You can keep it or let it go afterward"]
      tone := "gentle" }),
   ("self_compassion",
    { module := WellnessModule.SELF_COMPASSION
      title := "Self-Compassion Moment"
      description := "A gentle reminder to be kind to yourself."
      duration := "2-3 minutes"
      instructions :=
        ["Place your hand on your heart",
         "Say to yourself: \x27This is a difficult moment\x27",
         "Remember: difficulty is part of being human",
         "Say: \x27May I be kind to myself\x27",
         "Take a few breaths and let that sink in"]
      tone := "soft" }),
   ("mindfulness",
    { module := WellnessModule.MINDFULNESS
      title := "Mindful Moment"
      description := "A brief pause to be present."
      duration := "1-2 minutes"
      instructions :=
        ["Pause whatever you\x27re doing",
         "Take three slow, deep breaths",
         "Notice how your body feels right now",
         "Notice any thoughts without judgment",
         "Return to your breath"]
      tone := "calm" }),
   ("body_scan",
    { module := WellnessModule.BODY_SCAN
      title := "Quick Body Check"
      description := "Notice and release tension in your body."
      duration := "3-5 minutes"
      instructions :=
        ["Start by noticing your feet",
         "Slowly move your attention up through your body",
         "Notice any areas of tension",
         "Breathe into those areas",
         "Let the tension soften with each exhale"]
      tone := "soft" }),
   ("reassurance",
    { module := WellnessModule.REASSURANCE
      title := "Grounding Affirmation"
      description := "Words of comfort for anxious moments."
      duration := "1-2 minutes"
      instructions :=
        ["Find a comfortable position",
         "Say to yourself: \x27I am safe in this moment\x27",
         "Say: \x27This feeling will pass\x27",
         "Say: \x27I can handle difficult things\x27",
         "Take a deep breath and feel your feet on the ground"]
      tone := "reassuring" }),
   ("safety_grounding",
    { module := WellnessModule.SAFETY_GROUNDING
      title := "Safety Check"
      description := "Remind yourself you are safe right now."
      duration := "1-2 minutes"
      instructions :=
        ["Look around and notice where you are",
         "Name 3 things that show you\x27re safe",
         "Feel the chair/floor supporting you",
         "Say: \x27Right now, in this moment, I am okay\x27",
         "Take a slow breath"]
      tone := "reassuring" }),
   ("calming_exercises",
    { module := WellnessModule.CALMING
      title := "Quick Calm"
      description := "Simple techniques to reduce stress quickly."
      duration := "2-3 minutes"
      instructions :=
        ["Splash cold water on your face",
         "Or hold something cold in your hands",
         "Focus on the sensation",
         "Take slow breaths",
         "Notice how your body responds"]
      tone := "calm" }),
   ("reflection",
    { module := WellnessModule.REFLECTION
      title := "Gentle Reflection"
      description := "Take a moment to check in with yourself."
      duration := "3-5 minutes"
      instructions :=
        ["Ask yourself: \x27How am I really feeling?\x27",
         "Don\x27t judge the answer, just notice",
         "Ask: \x27What do I need right now?\x27",
         "Consider one small thing you could do for yourself",
         "Give yourself permission to feel what you feel"]
      tone := "gentle" }),
   ("gratitude",
    { module := WellnessModule.GRATITUDE
      title := "Gratitude Moment"
      description := "Notice small things to appreciate."
      duration := "2-3 minutes"
      instructions :=
        ["Think of one thing you\x27re grateful for today",
         "It can be something very small",
         "Notice how it feels to appreciate it",
         "Think of one more thing",
         "Let the warmth of gratitude settle in"]
      tone := "gentle" }),
   ("rest",
    { module := WellnessModule.REST
      title := "Permission to Rest"
      description := "Sometimes rest is the most helpful thing."
      duration := "5-15 minutes"
      instructions :=
        ["Find a comfortable place to sit or lie down",
         "Let your body relax completely",
         "Close your eyes if it feels good",
         "You don\x27t need to do anything right now",
         "Just rest"]
      tone := "soft" }),
   ("general_wellness",
    { module := WellnessModule.GENERAL
      title := "Wellness Check-In"
      description := "A simple check-in with yourself."
      duration := "2-3 minutes"
      instructions :=
        ["Pause and take a breath",
         "Notice how you\x27re feeling physically",
         "Notice how you\x27re feeling emotionally",
         "Ask what you might need right now",
         "Honor whatever comes up"]
      tone := "calm" }),
   ("positive_affirmation",
    { module := WellnessModule.SELF_COMPASSION
      title := "Positive Affirmations"
      description := "Gentle words to lift your spirit."
      duration := "2-3 minutes"
      instructions :=
        ["Place your hand on your heart",
         "Say: \x27I am worthy of love and kindness\x27",
         "Say: \x27I am doing the best I can\x27",
         "Say: \x27I deserve peace and happiness\x27",
         "Breathe deeply and let these words sink in"]
      tone := "soft" }),
   ("nature_visualization",
    { module := WellnessModule.MEDITATION
      title := "Nature Visualization"
      description := "Mentally transport yourself to a peaceful natural setting."
      duration := "3-5 minutes"
      instructions :=
        ["Close your eyes and imagine a peaceful forest",
         "Picture sunlight filtering through leaves",
         "Hear birds singing and water flowing",
         "Feel a gentle breeze on your skin",
         "Stay in this peaceful place as long as needed"]
      tone := "soft" }),
   ("cold_water_reset",
    { module := WellnessModule.CALMING
      title := "Cold Water Reset"
      description := "Use cold water to quickly calm your nervous system."
      duration := "1-2 minutes"
      instructions :=
        ["Go to a sink with cold water",
         "Splash cold water on your face",
         "Or hold ice cubes in your hands",
         "Focus on the cooling sensation",
         "Take slow, deep breaths"]
      tone := "calm" }),
   ("movement_break",
    { module := WellnessModule.YOGA
      title := "Quick Movement Break"
      description := "Gentle movement to release stuck energy."
      duration := "3-5 minutes"
      instructions :=
        ["Stand up and shake out your hands",
         "Roll your shoulders forward and back",
         "Gently twist your torso side to side",
         "March in place for 30 seconds",
         "End with three deep breaths"]
      tone := "gentle" }),
   ("emotional_release",
    { module := WellnessModule.JOURNALING
      title := "Emotional Release Writing"
      description := "Write freely to release pent-up emotions."
      duration := "5-10 minutes"
      instructions :=
        ["Grab paper or open a notes app",
         "Write \x27I feel...\x27 and keep going",
         "Don\x27t censor or edit yourself",
         "Let all emotions flow onto the page",
         "You can tear it up or delete it after"]
      tone := "gentle" }),
   ("color_breathing",
    { module := WellnessModule.BREATHING
      title := "Color Breathing"
      description := "Combine visualization with breathing for calm."
      duration := "3-4 minutes"
      instructions :=
        ["Breathe in and imagine a calming blue light",
         "Feel it fill your body with peace",
         "Breathe out and imagine gray stress leaving",
         "Watch it dissolve into the air",
         "Repeat until you feel lighter"]
      tone := "soft" })]

/-- WellnessEngine.emotion_activity_map (wellness_engine.py lines 67-153). -/
def emotion_activity_map : List (String × List String) :=
  [("sad",
    ["guided_meditation", "self_compassion", "positive_affirmation",
     "nature_visualization", "journaling", "emotional_release", "color_breathing"]),
   ("sadness",
    ["guided_meditation", "self_compassion", "positive_affirmation",
     "nature_visualization", "journaling", "emotional_release", "color_breathing"]),
   ("anger",
    ["breathing", "box_breathing", "cold_water_reset", "grounding",
     "movement_break", "yoga", "body_scan"]),
   ("angry",
    ["breathing", "box_breathing", "cold_water_reset", "grounding",
     "movement_break", "yoga", "body_scan"]),
   ("happy",
    ["gratitude", "mindfulness", "reflection", "nature_visualization",
     "journaling", "yoga"]),
   ("joy",
    ["gratitude", "mindfulness", "reflection", "nature_visualization",
     "journaling", "yoga"]),
   ("neutral",
    ["general_wellness", "reflection", "mindfulness", "gratitude",
     "breathing", "nature_visualization"]),
   ("fear",
    ["safety_grounding", "reassurance", "breathing", "grounding",
     "calming_exercises", "body_scan"]),
   ("anxiety",
    ["box_breathing", "grounding", "reassurance", "safety_grounding",
     "mindfulness", "body_scan"])]

/-- Priority activities for high intensity (wellness_engine.py lines 508-511). -/
def priority_activities : List String :=
  ["breathing", "box_breathing", "grounding",
   "safety_grounding", "reassurance", "cold_water_reset"]

/-- Generic fallback activities (wellness_engine.py line 525). -/
def general_fallbacks : List String :=
  ["breathing", "mindfulness", "grounding", "gratitude"]

/-- Model of `primary_emotion.lower()` on Lean strings. -/
def lower_str (s : String) : String := ⟨lowerChars s.data⟩

/-- Priority loop of get_all_suggestions (wellness_engine.py lines 507-514):
append each priority activity present in the catalog while below count;
no duplicate check in this loop, mirroring the source. -/
def suggestions_priority (count : Nat) :
    List String → List WellnessSuggestion → List WellnessSuggestion
  | [], acc => acc
  | a :: rest, acc =>
    match activities.lookup a with
    | some s =>
      suggestions_priority count rest (if acc.length < count then acc ++ [s] else acc)
    | none => suggestions_priority count rest acc

/-- Emotion-specific loop of get_all_suggestions (wellness_engine.py lines
516-522): append unseen catalog entries, stopping once count is reached. -/
def suggestions_emotion (count : Nat) :
    List String → List WellnessSuggestion → List WellnessSuggestion
  | [], acc => acc
  | a :: rest, acc =>
    match activities.lookup a with
    | none => suggestions_emotion count rest acc
    | some s =>
      let acc2 := if s ∈ acc then acc else acc ++ [s]
      if count ≤ acc2.length then acc2 else suggestions_emotion count rest acc2

/-- Fallback loop of get_all_suggestions (wellness_engine.py lines 524-530). -/
def suggestions_fallback (count : Nat) :
    List String → List WellnessSuggestion → List WellnessSuggestion
  | [], acc => acc
  | a :: rest, acc =>
    if count ≤ acc.length then acc
    else
      match activities.lookup a with
      | some s =>
        suggestions_fallback count rest (if s ∈ acc then acc else acc ++ [s])
      | none => suggestions_fallback count rest acc

/-- WellnessEngine.get_all_suggestions (wellness_engine.py lines 469-532),
on the primary_emotion and intensity_level attributes of a fused result. -/
def get_all_suggestions (primary_emotion intensity_level : String) (count : Nat) :
    List WellnessSuggestion :=
  let pe := lower_str primary_emotion
  let available :=
    (emotion_activity_map.lookup pe).getD
      ((emotion_activity_map.lookup "neutral").getD [])
  let s1 :=
    if (["high", "crisis"] : List String).contains intensity_level then
      suggestions_priority count priority_activities []
    else []
  let s2 := suggestions_emotion count available s1
  let s3 := suggestions_fallback count general_fallbacks s2
  s3.take count

/-! Helper lemmas about association-list lookups used by the fusion claims. -/

/-- Lookup skips a head entry with a different key. -/
theorem lookup_cons_ne {a k : String} {b : ℚ} {es : EmoDist} (h : k ≠ a) :
    ((a, b) :: es).lookup k = es.lookup k := by
  rw [List.lookup_cons]
  have hb : (k == a) = false := beq_eq_false_iff_ne.mpr h
  rw [hb]

/-- Lookup in a keyed map of a function over a label list. -/
theorem lookup_map_label {cats : List String} {f : String → ℚ} {k : String}
    (hk : k ∈ cats) :
    (cats.map (fun e => (e, f e))).lookup k = some (f k) := by
  induction cats with
  | nil => cases hk
  | cons c rest ih =>
    by_cases hkc : k = c
    · subst hkc
      simp
    · rcases List.mem_cons.mp hk with h | h
      · exact absurd h hkc
      · rw [List.map_cons, lookup_cons_ne hkc]
        exact ih h

/-- Lookup misses a keyed map over labels that exclude the key. -/
theorem lookup_map_label_none {cats : List String} {f : String → ℚ} {k : String}
    (hk : k ∉ cats) :
    (cats.map (fun e => (e, f e))).lookup k = none := by
  induction cats with
  | nil => rfl
  | cons c rest ih =>
    have hkc : k ≠ c := fun h => hk (h ▸ List.mem_cons_self c rest)
    rw [List.map_cons, lookup_cons_ne hkc]
    exact ih (fun h => hk (List.mem_cons_of_mem c h))

/-- The backfill fold preserves existing entries. -/
theorem foldl_backfill_some (es : List String) (d : EmoDist) (k : String) (x : ℚ)
    (h : d.lookup k = some x) :
    (es.foldl (fun acc e => if (acc.lookup e).isSome then acc else acc ++ [(e, 0)])
      d).lookup k = some x := by
  induction es generalizing d with
  | nil => exact h
  | cons e rest ih =>
    rw [List.foldl_cons]
    apply ih
    by_cases he : (d.lookup e).isSome
    · simpa [he] using h
    · rw [Bool.not_eq_true] at he
      simp only [he, Bool.false_eq_true, if_false]
      rw [List.lookup_append, h]
      rfl

/-- The backfill fold inserts a zero entry for a missing listed key. -/
theorem foldl_backfill_none_mem (es : List String) (d : EmoDist) (k : String)
    (hnone : d.lookup k = none) (hmem : k ∈ es) :
    (es.foldl (fun acc e => if (acc.lookup e).isSome then acc else acc ++ [(e, 0)])
      d).lookup k = some 0 := by
  induction es generalizing d with
  | nil => cases hmem
  | cons e rest ih =>
    rw [List.foldl_cons]
    by_cases hke : k = e
    · subst hke
      have hfalse : (d.lookup k).isSome = false := by simp [hnone]
      simp only [hfalse, Bool.false_eq_true, if_false]
      apply foldl_backfill_some
      rw [List.lookup_append, hnone]
      simp
    · have hstep :
          ((if (d.lookup e).isSome then d else d ++ [(e, 0)]).lookup k) = none := by
        by_cases he : (d.lookup e).isSome
        · simpa [he] using hnone
        · rw [Bool.not_eq_true] at he
          simp only [he, Bool.false_eq_true, if_false]
          rw [List.lookup_append, hnone, lookup_cons_ne hke]
          rfl
      have hmem2 : k ∈ rest := by
        rcases List.mem_cons.mp hmem with h | h
        · exact absurd h hke
        · exact h
      exact ih _ hstep hmem2

/-- Membership in the fused label set is membership in either key list. -/
theorem mem_all_categories {v t : EmoDist} {k : String} :
    k ∈ all_categories v t ↔ k ∈ v.map Prod.fst ∨ k ∈ t.map Prod.fst := by
  unfold all_categories
  rw [List.mem_dedup, List.mem_append]

/-- Every label of the fused set is stored with the rounded weighted sum. -/
theorem dget_fuse (v : EmotionResult) (t : TextEmotionResult) (k : String)
    (hk : k ∈ all_categories v.all_emotions t.all_emotions) :
    dget (fuse_emotions v t).all_emotions k
      = round_to 4 (voice_weight * dget v.all_emotions k
        + text_weight * dget t.all_emotions k) := by
  have hfs : (fused_scores v.all_emotions t.all_emotions).lookup k
      = some (round_to 4 (voice_weight * dget v.all_emotions k
        + text_weight * dget t.all_emotions k)) := by
    unfold fused_scores
    exact lookup_map_label hk
  simp only [fuse_emotions]
  unfold dget backfill_core
  rw [foldl_backfill_some _ _ _ _ hfs]
  rfl

/-- The executable decimal rounding agrees with Mathlib's `round`. -/
theorem round_to_eq_round (n : ℕ) (x : ℚ) :
    round_to n x = ((round (x * 10 ^ n) : ℤ) : ℚ) / 10 ^ n := by
  unfold round_to
  rw [round_eq]
  have hfl : (x * 10 ^ n + 1 / 2).floor = ⌊x * 10 ^ n + 1 / 2⌋ := by
    rw [Rat.floor_def, Rat.floor_def']
  rw [hfl]

/-- Distance of decimal rounding from the exact value. -/
theorem round_to_abs_le (n : ℕ) (x : ℚ) : |round_to n x - x| ≤ 1 / (2 * 10 ^ n) := by
  rw [round_to_eq_round]
  have hpos : (0 : ℚ) < 10 ^ n := by positivity
  have h := abs_sub_round (x * 10 ^ n)
  rw [abs_sub_comm] at h
  have heq : ((round (x * 10 ^ n) : ℤ) : ℚ) / 10 ^ n - x
      = (((round (x * 10 ^ n) : ℤ) : ℚ) - x * 10 ^ n) / 10 ^ n := by
    field_simp
    ring
  rw [heq, abs_div, abs_of_pos hpos]
  have hgoal : (1 : ℚ) / (2 * 10 ^ n) = (1 / 2) / 10 ^ n := by ring
  rw [hgoal]
  exact (div_le_div_iff_of_pos_right hpos).mpr h

/-- Concrete voice estimate used for counterexamples and witnesses. -/
def voice_sample : EmotionResult :=
  { primary_emotion := "sadness", confidence := 0.9
    all_emotions := [("sadness", 0.1111)], intensity := 0.5 }

/-- Concrete text estimate used for counterexamples and witnesses. -/
def text_sample : TextEmotionResult :=
  { primary_emotion := "sadness", confidence := 0.8
    all_emotions := [("sadness", 0)], sentiment := "negative", key_phrases := [] }

/-- C1 counterexample: with voice sadness 0.1111 and text sadness 0, the
stored fused sadness score is 0.0722 (the weighted sum rounded to 4 decimal
places), not the exact weighted sum 0.072215 the claim asserts. -/
theorem C1_counterexample :
    dget (fuse_emotions voice_sample text_sample).all_emotions "sadness"
      ≠ 0.65 * (0.1111 : ℚ) + 0.35 * 0 := by
  with_unfolding_all decide

/-- C1 (amended): for every label present in either distribution, the stored
fused score equals 0.65 times the voice score plus 0.35 times the text score
rounded to 4 decimal places, missing labels contributing 0. -/
theorem C1_fused_score_rounded (v : EmotionResult) (t : TextEmotionResult)
    (label : String)
    (h : label ∈ v.all_emotions.map Prod.fst ∨ label ∈ t.all_emotions.map Prod.fst) :
    dget (fuse_emotions v t).all_emotions label
      = round_to 4 (0.65 * dget v.all_emotions label
        + 0.35 * dget t.all_emotions label) :=
  dget_fuse v t label (mem_all_categories.mpr h)

/-- C1 witness: the amended equation evaluated on the concrete samples. -/
theorem C1_fused_score_rounded_witness :
    dget (fuse_emotions voice_sample text_sample).all_emotions "sadness"
      = round_to 4 (0.65 * dget voice_sample.all_emotions "sadness"
        + 0.35 * dget text_sample.all_emotions "sadness") :=
  C1_fused_score_rounded voice_sample text_sample "sadness" (by decide)

/-- C10: every stored fused score is the weighted sum rounded to 4 decimal
places, hence within 5e-5 of the exact weighted sum; the confidence and
intensity fields are the corresponding values rounded to 3 decimal places;
and fusing identical inputs yields identical stored results. -/
theorem C10_rounding_quantization (v v2 : EmotionResult) (t t2 : TextEmotionResult) :
    (∀ label ∈ all_categories v.all_emotions t.all_emotions,
      dget (fuse_emotions v t).all_emotions label
          = round_to 4 (voice_weight * dget v.all_emotions label
            + text_weight * dget t.all_emotions label)
        ∧ |dget (fuse_emotions v t).all_emotions label
            - (voice_weight * dget v.all_emotions label
              + text_weight * dget t.all_emotions label)| ≤ 5 / 100000)
    ∧ (fuse_emotions v t).confidence
        = round_to 3 (dget (fuse_emotions v t).all_emotions
            (fuse_emotions v t).primary_emotion)
    ∧ (fuse_emotions v t).intensity
        = round_to 3 (calculate_intensity (fuse_emotions v t).all_emotions v.intensity)
    ∧ (v = v2 → t = t2 → fuse_emotions v t = fuse_emotions v2 t2) := by
  refine ⟨?_, ?_, ?_, ?_⟩
  · intro label hmem
    refine ⟨dget_fuse v t label hmem, ?_⟩
    rw [dget_fuse v t label hmem]
    calc |round_to 4 (voice_weight * dget v.all_emotions label
            + text_weight * dget t.all_emotions label)
          - (voice_weight * dget v.all_emotions label
            + text_weight * dget t.all_emotions label)|
        ≤ 1 / (2 * 10 ^ 4) := round_to_abs_le 4 _
      _ = 5 / 100000 := by norm_num
  · simp only [fuse_emotions]
  · simp only [fuse_emotions]
  · intro h1 h2
    rw [h1, h2]

/-- C10 witness: the rounding identities evaluated on the concrete samples. -/
theorem C10_rounding_quantization_witness :
    dget (fuse_emotions voice_sample text_sample).all_emotions "sadness"
        = round_to 4 (voice_weight * dget voice_sample.all_emotions "sadness"
          + text_weight * dget text_sample.all_emotions "sadness")
      ∧ fuse_emotions voice_sample text_sample = fuse_emotions voice_sample text_sample :=
  ⟨((C10_rounding_quantization voice_sample voice_sample text_sample text_sample).1
      "sadness" (by decide)).1,
   (C10_rounding_quantization voice_sample voice_sample text_sample
      text_sample).2.2.2 rfl rfl⟩

/-- Every configured crisis keyword is already lower-case. -/
theorem crisis_keywords_lower :
    ∀ kw ∈ crisis_keywords, lowerChars kw.data = kw.data := by
  decide

/-- C2: the crisis flag holds exactly when one of the three indicators does:
intensity at least 0.85, a configured keyword occurring case-insensitively
in the space-joined key phrases, or the sadness/fear/intensity combination. -/
theorem C2_crisis_or_property (intensity : ℚ) (key_phrases : List String)
    (emotions : EmoDist) :
    check_crisis_indicators intensity key_phrases emotions = true ↔
      (0.85 ≤ intensity
        ∨ (∃ kw ∈ crisis_keywords,
            occursIn (lowerChars kw.data) (lowerChars (join_space key_phrases)) = true)
        ∨ (0.6 < dget emotions "sadness" ∧ 0.4 < dget emotions "fear"
            ∧ 0.7 < intensity)) := by
  constructor
  · intro ht
    unfold check_crisis_indicators at ht
    split_ifs at ht with h1 h2 h3
    · exact Or.inl h1
    · rw [List.any_eq_true] at h2
      obtain ⟨kw, hkw, hocc⟩ := h2
      exact Or.inr (Or.inl ⟨kw, hkw, by rwa [crisis_keywords_lower kw hkw]⟩)
    · exact Or.inr (Or.inr h3)
  · intro h
    unfold check_crisis_indicators
    split_ifs with h1 h2 h3
    · rfl
    · rfl
    · rfl
    · rcases h with h | ⟨kw, hkw, hocc⟩ | h
      · exact absurd h h1
      · refine absurd ?_ h2
        rw [List.any_eq_true]
        exact ⟨kw, hkw, by rwa [crisis_keywords_lower kw hkw] at hocc⟩
      · exact absurd h h3

/-- Numeric rank of an intensity level, for stating monotonicity:
low 0, mild 1, moderate 2, high 3, crisis 4. -/
def level_rank (level : String) : ℕ :=
  if level == "crisis" then 4
  else if level == "high" then 3
  else if level == "moderate" then 2
  else if level == "mild" then 1
  else 0

/-- C4: the intensity level is the step function of the four ascending
thresholds, and its rank is non-decreasing in the intensity. -/
theorem C4_intensity_level_step (i j : ℚ) :
    (0.85 ≤ i → get_intensity_level i = "crisis")
    ∧ (0.7 ≤ i → i < 0.85 → get_intensity_level i = "high")
    ∧ (0.5 ≤ i → i < 0.7 → get_intensity_level i = "moderate")
    ∧ (0.3 ≤ i → i < 0.5 → get_intensity_level i = "mild")
    ∧ (i < 0.3 → get_intensity_level i = "low")
    ∧ (i ≤ j → level_rank (get_intensity_level i) ≤ level_rank (get_intensity_level j)) := by
  unfold get_intensity_level
  unfold crisis_threshold high_threshold moderate_threshold mild_threshold
  refine ⟨?_, ?_, ?_, ?_, ?_, ?_⟩
  · intro h
    rw [if_pos h]
  · intro h1 h2
    rw [if_neg (by linarith), if_pos h1]
  · intro h1 h2
    rw [if_neg (by linarith), if_neg (by linarith), if_pos h1]
  · intro h1 h2
    rw [if_neg (by linarith), if_neg (by linarith), if_neg (by linarith), if_pos h1]
  · intro h
    rw [if_neg (by linarith), if_neg (by linarith), if_neg (by linarith),
      if_neg (by linarith)]
  · intro hij
    split_ifs <;> first | decide | (exfalso; linarith)

/-- C4 witness: the step function and monotonicity at the claimed examples. -/
theorem C4_intensity_level_step_witness :
    get_intensity_level 0.86 = "crisis" ∧ get_intensity_level 0.72 = "high"
    ∧ get_intensity_level 0.55 = "moderate" ∧ get_intensity_level 0.35 = "mild"
    ∧ get_intensity_level 0.10 = "low"
    ∧ level_rank (get_intensity_level 0.35) ≤ level_rank (get_intensity_level 0.72) :=
  ⟨(C4_intensity_level_step 0.86 0.86).1 (by norm_num),
   (C4_intensity_level_step 0.72 0.72).2.1 (by norm_num) (by norm_num),
   (C4_intensity_level_step 0.55 0.55).2.2.1 (by norm_num) (by norm_num),
   (C4_intensity_level_step 0.35 0.35).2.2.2.1 (by norm_num) (by norm_num),
   (C4_intensity_level_step 0.10 0.10).2.2.2.2.1 (by norm_num),
   (C4_intensity_level_step 0.35 0.72).2.2.2.2.2 (by norm_num)⟩

/-- Scores looked up in a distribution with values in the unit interval stay
in the unit interval (the default for a missing label is 0). -/
theorem dget_bounds {em : EmoDist} (hem : ∀ p ∈ em, 0 ≤ p.2 ∧ p.2 ≤ 1)
    (k : String) : 0 ≤ dget em k ∧ dget em k ≤ 1 := by
  unfold dget
  cases h : em.lookup k with
  | none => norm_num
  | some x =>
    obtain ⟨l1, l2, hsplit, hmiss⟩ := List.lookup_eq_some_iff.mp h
    have hmem : (k, x) ∈ em := by
      rw [hsplit]
      exact List.mem_append_right l1 (List.mem_cons_self _ _)
    simpa using hem (k, x) hmem

/-- C5: for distributions and voice intensity within the unit interval, the
computed intensity is the min-1-clipped combination 0.4 times the normalized
distress score plus 0.3 times one minus the neutral score plus 0.3 times the
voice intensity, and it lies in the unit interval. -/
theorem C5_intensity_formula (em : EmoDist) (vi : ℚ)
    (hem : ∀ p ∈ em, 0 ≤ p.2 ∧ p.2 ≤ 1) (hvi0 : 0 ≤ vi) (hvi1 : vi ≤ 1) :
    calculate_intensity em vi
      = min 1 (0.4 * ((dget em "sadness" * 1.5 + dget em "fear" * 1.5
          + dget em "anxiety" * 1.4 + dget em "anger" * 1.2
          + dget em "frustration" * 1.1) / 6.7)
        + 0.3 * (1 - dget em "neutral") + 0.3 * vi)
    ∧ 0 ≤ calculate_intensity em vi ∧ calculate_intensity em vi ≤ 1 := by
  have hs := dget_bounds hem "sadness"
  have hf := dget_bounds hem "fear"
  have hx := dget_bounds hem "anxiety"
  have hg := dget_bounds hem "anger"
  have hr := dget_bounds hem "frustration"
  have hn := dget_bounds hem "neutral"
  have heq : calculate_intensity em vi
      = min 1 (0.4 * ((dget em "sadness" * 1.5 + dget em "fear" * 1.5
          + dget em "anxiety" * 1.4 + dget em "anger" * 1.2
          + dget em "frustration" * 1.1) / 6.7)
        + 0.3 * (1 - dget em "neutral") + 0.3 * vi) := by
    unfold calculate_intensity distress_weights
    norm_num
  refine ⟨heq, ?_, ?_⟩
  · rw [heq]
    have hX : (0:ℚ) ≤ dget em "sadness" * 1.5 + dget em "fear" * 1.5
        + dget em "anxiety" * 1.4 + dget em "anger" * 1.2
        + dget em "frustration" * 1.1 := by
      have h1 : (0:ℚ) ≤ dget em "sadness" * 1.5 := by linarith [hs.1]
      have h2 : (0:ℚ) ≤ dget em "fear" * 1.5 := by linarith [hf.1]
      have h3 : (0:ℚ) ≤ dget em "anxiety" * 1.4 := by linarith [hx.1]
      have h4 : (0:ℚ) ≤ dget em "anger" * 1.2 := by linarith [hg.1]
      have h5 : (0:ℚ) ≤ dget em "frustration" * 1.1 := by linarith [hr.1]
      linarith
    have t1 : (0:ℚ) ≤ 0.4 * ((dget em "sadness" * 1.5 + dget em "fear" * 1.5
        + dget em "anxiety" * 1.4 + dget em "anger" * 1.2
        + dget em "frustration" * 1.1) / 6.7) :=
      mul_nonneg (by norm_num) (div_nonneg hX (by norm_num))
    have t2 : (0:ℚ) ≤ 0.3 * (1 - dget em "neutral") :=
      mul_nonneg (by norm_num) (by linarith [hn.2])
    have t3 : (0:ℚ) ≤ 0.3 * vi := mul_nonneg (by norm_num) hvi0
    exact le_min (by norm_num) (by linarith)
  · rw [heq]
    exact min_le_left _ _

/-- Benign fused sample: no crisis flag, low intensity. -/
def fused_sample : FusedEmotionResult :=
  { primary_emotion := "neutral", confidence := 0, all_emotions := [], intensity := 0
    intensity_level := "low", voice_contribution := [], text_contribution := []
    key_phrases := [], requires_crisis_response := false }

/-- C6 counterexample: a detected crisis carries 4 localized resource
strings, one per configured region, not at most 3; the truncation to 3
happens only in the get_resource_text formatting helper. -/
theorem C6_counterexample :
    (check_safety "i want to hurt myself" fused_sample).is_crisis = true
    ∧ (check_safety "i want to hurt myself" fused_sample).crisis_resources.length = 4
    ∧ ¬ (check_safety "i want to hurt myself" fused_sample).crisis_resources.length ≤ 3 := by
  refine ⟨?_, ?_, ?_⟩ <;> with_unfolding_all decide

/-- C6 (amended): on a detected crisis the verdict skips the suggestion,
carries a non-empty crisis_type-specific priority message from the static
lookup, and a non-empty list of exactly 4 localized resource strings; with
no crisis the resource list is empty. -/
theorem C6_crisis_verdict_contents (text : String) (em : FusedEmotionResult) :
    ((check_safety text em).is_crisis = true →
      (check_safety text em).should_skip_suggestion = true
      ∧ (check_safety text em).crisis_resources.length = 4
      ∧ (check_safety text em).crisis_resources ≠ []
      ∧ ∃ ct, (check_safety text em).crisis_type = some ct
          ∧ (check_safety text em).priority_message = some (get_crisis_message ct)
          ∧ get_crisis_message ct ≠ "")
    ∧ ((check_safety text em).is_crisis = false →
      (check_safety text em).crisis_resources = []) := by
  simp only [check_safety]
  split_ifs with h1 h2 h3 h4 <;>
    refine ⟨fun hc => ?_, fun hnc => ?_⟩ <;>
    simp_all [get_relevant_resources, crisis_resources, get_crisis_message,
      crisis_messages] <;>
    decide

/-- C6 witness: the amended contents evaluated on a concrete crisis run. -/
theorem C6_crisis_verdict_contents_witness :
    (check_safety "i want to hurt myself" fused_sample).should_skip_suggestion = true
    ∧ (check_safety "i want to hurt myself" fused_sample).crisis_resources.length = 4 := by
  have h := (C6_crisis_verdict_contents "i want to hurt myself" fused_sample).1
    (by with_unfolding_all decide)
  exact ⟨h.1, h.2.1⟩

/-- C3: when the lower-cased transcript matches both a self-harm phrase and
a hopelessness phrase, the verdict's crisis type is self_harm and never
hopelessness: the self-harm family is evaluated first and fixes the type. -/
theorem C3_self_harm_priority (text : String) (em : FusedEmotionResult)
    (h1 : check_patterns (lowerChars text.data) self_harm_patterns = true)
    (h2 : check_patterns (lowerChars text.data) hopelessness_patterns = true) :
    (check_safety text em).crisis_type = some "self_harm"
    ∧ (check_safety text em).crisis_type ≠ some "hopelessness" := by
  simp [check_safety, h1]

/-- C3 witness: a transcript containing "hurt myself" and "hopeless". -/
theorem C3_self_harm_priority_witness :
    check_patterns (lowerChars ("I will hurt myself and I feel hopeless").data)
      self_harm_patterns = true
    ∧ check_patterns (lowerChars ("I will hurt myself and I feel hopeless").data)
      hopelessness_patterns = true
    ∧ (check_safety "I will hurt myself and I feel hopeless" fused_sample).crisis_type
      = some "self_harm" :=
  ⟨by decide, by decide,
   (C3_self_harm_priority "I will hurt myself and I feel hopeless" fused_sample
     (by decide) (by decide)).1⟩

/-- Fused sample whose own crisis flag is set. -/
def fused_crisis_sample : FusedEmotionResult :=
  { primary_emotion := "neutral", confidence := 0, all_emotions := [], intensity := 0
    intensity_level := "low", voice_contribution := [], text_contribution := []
    key_phrases := [], requires_crisis_response := true }

/-- C8 counterexample: with an empty transcript but a fused result whose
requires_crisis_response flag is set, the verdict is a crisis response, not
the "normal" verdict the claim promises for every fused result. -/
theorem C8_counterexample :
    (check_safety "" fused_crisis_sample).recommended_action = "crisis_response"
    ∧ (check_safety "" fused_crisis_sample).is_crisis = true
    ∧ ¬((check_safety "" fused_crisis_sample).is_crisis = false
        ∧ (check_safety "" fused_crisis_sample).recommended_action = "normal") := by
  refine ⟨?_, ?_, ?_⟩ <;> with_unfolding_all decide

/-- C8 (amended): the check never fails on an empty transcript, no text
pattern matches, and the verdict is the fully normal one provided the fused
result carries no crisis flag and its intensity level is neither high nor
crisis. -/
theorem C8_empty_transcript_normal (em : FusedEmotionResult)
    (h1 : em.requires_crisis_response = false)
    (h2 : em.intensity_level ≠ "high") (h3 : em.intensity_level ≠ "crisis") :
    check_safety "" em =
      { is_crisis := false, is_high_distress := false, crisis_type := none
        recommended_action := "normal", crisis_resources := []
        should_skip_suggestion := false, priority_message := none } := by
  have hsh : check_patterns (lowerChars ("" : String).data) self_harm_patterns
      = false := by decide
  have hh : check_patterns (lowerChars ("" : String).data) hopelessness_patterns
      = false := by decide
  have hed : check_patterns (lowerChars ("" : String).data) extreme_distress_patterns
      = false := by decide
  have hck : check_patterns (lowerChars ("" : String).data) crisis_keywords
      = false := by decide
  simp [check_safety, hsh, hh, hed, hck, h1, h2, h3]

/-- C8 witness: the amended normal verdict on the benign fused sample. -/
theorem C8_empty_transcript_normal_witness :
    check_safety "" fused_sample =
      { is_crisis := false, is_high_distress := false, crisis_type := none
        recommended_action := "normal", crisis_resources := []
        should_skip_suggestion := false, priority_message := none } :=
  C8_empty_transcript_normal fused_sample (by decide) (by decide) (by decide)

/-- Voice estimate with an empty distribution. -/
def empty_voice : EmotionResult :=
  { primary_emotion := "neutral", confidence := 0, all_emotions := [], intensity := 0 }

/-- Text estimate with an empty distribution. -/
def empty_text : TextEmotionResult :=
  { primary_emotion := "neutral", confidence := 0, all_emotions := []
    sentiment := "neutral", key_phrases := [] }

/-- C7 counterexample: fed two empty distributions, fusion does not fail
with any error; it proceeds, backfills the six core labels to 0.0 and
returns this fully formed fused result. -/
theorem C7_counterexample :
    fuse_emotions empty_voice empty_text =
      { primary_emotion := "sadness", confidence := 0
        all_emotions := [("sadness", 0), ("anger", 0), ("fear", 0),
          ("anxiety", 0), ("joy", 0), ("neutral", 0)]
        intensity := 0.3, intensity_level := "mild"
        voice_contribution := [], text_contribution := []
        key_phrases := [], requires_crisis_response := false } := by
  with_unfolding_all decide

/-- C7 (amended): fusion performs no input validation; for every pair of
estimates, also ones with empty distributions, it produces a result whose
distribution contains all six core labels, backfilled to 0.0 when absent
from both inputs. -/
theorem C7_no_validation_backfill (v : EmotionResult) (t : TextEmotionResult) :
    ∀ e ∈ required_emotions,
      ((fuse_emotions v t).all_emotions.lookup e).isSome = true
      ∧ (e ∉ all_categories v.all_emotions t.all_emotions →
          (fuse_emotions v t).all_emotions.lookup e = some 0) := by
  intro e he
  constructor
  · simp only [fuse_emotions]
    unfold backfill_core
    cases hl : (fused_scores v.all_emotions t.all_emotions).lookup e with
    | none => rw [foldl_backfill_none_mem _ _ _ hl he]; rfl
    | some x => rw [foldl_backfill_some _ _ _ _ hl]; rfl
  · intro hne
    have hnone : (fused_scores v.all_emotions t.all_emotions).lookup e = none := by
      unfold fused_scores
      exact lookup_map_label_none hne
    simp only [fuse_emotions]
    unfold backfill_core
    exact foldl_backfill_none_mem _ _ _ hnone he

/-- C7 witness: the backfill guarantee evaluated on the empty estimates. -/
theorem C7_no_validation_backfill_witness :
    ((fuse_emotions empty_voice empty_text).all_emotions.lookup "sadness").isSome
      = true :=
  (C7_no_validation_backfill empty_voice empty_text "sadness" (by decide)).1

/-- C9: for each of the 8 supported emotion labels and every intensity
level string, get_all_suggestions with count 4 returns exactly 4 pairwise
distinct suggestions from the static catalog. -/
theorem C9_wellness_count :
    ∀ e ∈ supported_emotions, ∀ lvl : String,
      (get_all_suggestions e lvl 4).length = 4
      ∧ (get_all_suggestions e lvl 4).Nodup := by
  intro e he lvl
  rcases Bool.eq_false_or_eq_true
    ((["high", "crisis"] : List String).contains lvl) with h | h <;>
    fin_cases he <;>
    simp only [get_all_suggestions, h, Bool.false_eq_true, if_false, if_true] <;>
    decide

/-- C9 witness: four distinct suggestions for sadness at moderate level. -/
theorem C9_wellness_count_witness :
    (get_all_suggestions "sadness" "moderate" 4).length = 4
    ∧ (get_all_suggestions "sadness" "moderate" 4).Nodup :=
  C9_wellness_count "sadness" (by decide) "moderate"

/-- C5 witness: the intensity bounds evaluated on a concrete distribution. -/
theorem C5_intensity_formula_witness :
    0 ≤ calculate_intensity [("sadness", 0.5)] 0.2
    ∧ calculate_intensity [("sadness", 0.5)] 0.2 ≤ 1 :=
  ⟨(C5_intensity_formula [("sadness", 0.5)] 0.2
      (by intro p hp; simp only [List.mem_singleton] at hp; subst hp; norm_num)
      (by norm_num) (by norm_num)).2.1,
   (C5_intensity_formula [("sadness", 0.5)] 0.2
      (by intro p hp; simp only [List.mem_singleton] at hp; subst hp; norm_num)
      (by norm_num) (by norm_num)).2.2⟩
